import Mathlib

/-!
Shallow embedding of the authentication / token-revocation subsystem of the
FastAPI-Books REST API (app/core/redis.py, app/core/security.py,
app/services/auth_services.py, app/models/user.py), together with theorems
settling the specification claims about it.

Conventions of the embedding:
* The Redis revocation cache is a pure state (`RedisState`); each cache
  operation from app/core/redis.py becomes a function on that state, with the
  `available` flag standing for reachability of the Redis server (the
  `ConnectionError`/`RedisError` branches of the source).
* A decoded JWT payload is a `Payload` record of optional claims; functions
  that start from `decode_token(...)` are embedded over the already-decoded
  payload (signature checking is delegated to the PyJWT library in the source).
* Python truthiness of a claim value (`if jti:`) is `truthyStr` / `truthyNat`.
* Nondeterministic inputs of the source (current time `time.time()`, fresh
  `uuid.uuid4()` jtis) are explicit parameters.
* The user table is a `List User`; SQLAlchemy lookups by unique columns become
  `List.find?`.
* The ORM model in app/models/user.py declares no `is_verified` column even
  though the migration add_is_verified_001 adds it to the users table and the
  services read and pass it (the C9 development below).  `User` here is the
  row of the migrated table; every point where the service code touches
  `is_verified` through the ORM model is embedded as the unhandled Python
  exception it raises there — `AuthError.attributeError` for an attribute
  read, `AuthError.typeError` for the constructor keyword — surfaced by the
  framework as HTTP 500.
-/

namespace BookAPI

/-- Roles from `UserRole` in app/models/user.py. -/
inductive UserRole
  | admin
  | moderator
  | user
deriving DecidableEq, Repr

/-- A row of the `users` table after migration add_is_verified_001.  The ORM
model itself (app/models/user.py, its declared columns listed in
`userModelColumns`) maps every field except `is_verified`; accordingly no
embedded service function reads the `is_verified` field — wherever the source
touches that attribute through the ORM model, the embedding produces the
unhandled Python exception instead (see the C9 development). -/
structure User where
  uuid : String
  username : String
  email : String
  first_name : String
  last_name : String
  password : String
  role : UserRole
  is_active : Bool
  is_verified : Bool
deriving DecidableEq, Repr

/-- The failures an auth-service call can surface: one constructor per domain
exception class of app/core/exceptions.py, plus the two unhandled Python
exceptions the is_verified gap produces (`attributeError` for reading a
non-mapped attribute, `typeError` for passing a non-column keyword to the
declarative constructor), which the framework reports as HTTP 500. -/
inductive AuthError
  | invalidCredentials
  | inactiveUser
  | emailNotVerified
  | invalidToken
  | tokenExpired
  | userNotFound (ident : String)
  | duplicateEmail (email : String)
  | duplicateUsername (username : String)
  | redisUnavailable
  | validationErr (detail : String)
  | emailAlreadyVerified
  | emailSending
  | invalidVerificationToken
  | attributeError (attr : String)
  | typeError (kwarg : String)
deriving DecidableEq, Repr

/-- The HTTP status code each exception class carries (app/core/exceptions.py:
`InvalidCredentialsException`, `TokenExpiredException` and
`InvalidTokenException` extend `UnauthorizedException` (401);
`InactiveUserException` extends `ForbiddenException` (403);
`EmailNotVerifiedException` is 403; `NotFoundException` is 404; the duplicate
exceptions are 400; `RedisUnavailableException` extends
`ServiceUnavailableException` (503); `ValidationException` is 422;
`EmailAlreadyVerifiedException` is 400; `EmailSendingException` is 503;
`InvalidVerificationTokenException` is 400).  An unhandled AttributeError or
TypeError escapes the service and is answered as 500 Internal Server Error. -/
def AuthError.status : AuthError → Nat
  | .invalidCredentials => 401
  | .inactiveUser => 403
  | .emailNotVerified => 403
  | .invalidToken => 401
  | .tokenExpired => 401
  | .userNotFound _ => 404
  | .duplicateEmail _ => 400
  | .duplicateUsername _ => 400
  | .redisUnavailable => 503
  | .validationErr _ => 422
  | .emailAlreadyVerified => 400
  | .emailSending => 503
  | .invalidVerificationToken => 400
  | .attributeError _ => 500
  | .typeError _ => 500

/-- The `detail` message of each exception class (app/core/exceptions.py). -/
def AuthError.detail : AuthError → String
  | .invalidCredentials => "Invalid email or password"
  | .inactiveUser => "Your account has been deactivated"
  | .emailNotVerified => "Please verify your email address before logging in"
  | .invalidToken => "Invalid or malformed token"
  | .tokenExpired => "Token has expired"
  | .userNotFound ident => "User with identifier " ++ ident ++ " not found"
  | .duplicateEmail e => "User with email " ++ e ++ " already exists"
  | .duplicateUsername u => "User with username " ++ u ++ " already exists"
  | .redisUnavailable =>
      "Token revocation service is currently unavailable. Please try again later."
  | .validationErr d => d
  | .emailAlreadyVerified => "Email is already verified"
  | .emailSending => "Failed to send email. Please try again later."
  | .invalidVerificationToken => "Invalid or expired verification token"
  | .attributeError a => "AttributeError: User object has no attribute " ++ a
  | .typeError k => "TypeError: " ++ k ++ " is an invalid keyword argument for User"

/-- State of the Redis revocation cache (app/core/redis.py).
`tokenEntries` are the `blacklist:token:<jti>` keys with the TTL passed to
`setex`; `userWatermarks` are the `blacklist:user:<uuid>` keys holding the
stored timestamp; `available` is whether the server is reachable (its
negation selects the `ConnectionError`/`RedisError` handlers). -/
structure RedisState where
  available : Bool
  tokenEntries : List (String × Nat)
  userWatermarks : List (String × Nat)
deriving DecidableEq, Repr

/-- `add_token_to_blacklist(jti, expires_in)` (app/core/redis.py:50-71):
`setex(blacklist:token:jti, expires_in, "revoked")`, returning `True` on
success and `False` when Redis errors (in which case nothing is stored). -/
def add_token_to_blacklist (st : RedisState) (jti : String) (expires_in : Nat) :
    RedisState × Bool :=
  if st.available then
    ({ st with tokenEntries := (jti, expires_in) :: st.tokenEntries }, true)
  else
    (st, false)

/-- `is_token_blacklisted(jti)` (app/core/redis.py:74-95): `get` on the token
key; any Redis error is caught and the function returns `False` (fail open). -/
def is_token_blacklisted (st : RedisState) (jti : String) : Bool :=
  if st.available then
    (List.lookup jti st.tokenEntries).isSome
  else
    false

/-- `blacklist_all_user_tokens(user_uuid, expires_in)`
(app/core/redis.py:120-143): `setex(blacklist:user:uuid, expires_in,
str(int(time.time())))` — stores the current time as the watermark; returns
`False` unchanged when Redis errors. -/
def blacklist_all_user_tokens (st : RedisState) (user_uuid : String)
    (_expires_in now : Nat) : RedisState × Bool :=
  if st.available then
    ({ st with userWatermarks := (user_uuid, now) :: st.userWatermarks }, true)
  else
    (st, false)

/-- `is_user_token_blacklisted(user_uuid, token_iat)`
(app/core/redis.py:146-168): `False` when no watermark is stored, otherwise
`token_iat < int(blacklist_time)`; any Redis error yields `False` (fail
open). -/
def is_user_token_blacklisted (st : RedisState) (user_uuid : String)
    (token_iat : Nat) : Bool :=
  if st.available then
    match List.lookup user_uuid st.userWatermarks with
    | none => false
    | some w => token_iat < w
  else
    false

/-- A decoded JWT payload (the dict returned by `jwt.decode`); each claim is
optional because the service reads it with `payload.get(...)`. -/
structure Payload where
  sub : Option String := none
  jti : Option String := none
  iat : Option Nat := none
  exp : Option Nat := none
  type : Option String := none
deriving DecidableEq, Repr

/-- Python truthiness of an optional string claim: `None` and `""` are falsy. -/
def truthyStr : Option String → Bool
  | none => false
  | some s => !(s == "")

/-- Python truthiness of an optional integer claim: `None` and `0` are falsy. -/
def truthyNat : Option Nat → Bool
  | none => false
  | some n => !(n == 0)

/-- Stand-in for `pwd_context.hash` (`get_password_hash`,
app/core/security.py:29-31).  The bcrypt hashing itself is delegated to the
passlib library; this deterministic model keeps its contract used by the
service: the stored string is a bcrypt digest (distinct from the plaintext)
against which exactly the original plaintext verifies. -/
def get_password_hash (password : String) : String :=
  "$2b$12$" ++ password

/-- Stand-in for `pwd_context.verify` (`verify_password`,
app/core/security.py:24-26), matching `get_password_hash` above. -/
def verify_password (plain hashed : String) : Bool :=
  hashed == get_password_hash plain

/-- `UserService.get_user_by_email` (app/services/user_services.py:32-38):
`select(User).where(User.email == email)`, first row. -/
def get_user_by_email (db : List User) (email : String) : Option User :=
  db.find? (fun u => u.email == email)

/-- `UserService.get_user_by_username` (app/services/user_services.py:40-46). -/
def get_user_by_username (db : List User) (username : String) : Option User :=
  db.find? (fun u => u.username == username)

/-- `UserService.get_user_by_uuid` (app/services/user_services.py:24-30). -/
def get_user_by_uuid (db : List User) (user_uuid : String) : Option User :=
  db.find? (fun u => u.uuid == user_uuid)

/-- `create_access_token` (app/core/security.py:34-64) at payload level: adds
`exp = now + expires_delta`, `iat = now`, a fresh `jti` and `type = "access"`.
`login` and `refresh_access_token` always pass
`expires_delta = ACCESS_TOKEN_EXPIRE_MINUTES` minutes. -/
def create_access_token (sub jti : String) (now expire_minutes : Nat) : Payload :=
  { sub := some sub, jti := some jti, iat := some now,
    exp := some (now + expire_minutes * 60), type := some "access" }

/-- `create_refresh_token` (app/core/security.py:67-96) at payload level: with
no `expires_delta`, expiry is 7 days from now, `type = "refresh"`. -/
def create_refresh_token (sub jti : String) (now : Nat) : Payload :=
  { sub := some sub, jti := some jti, iat := some now,
    exp := some (now + 7 * 24 * 60 * 60), type := some "refresh" }

/-- The token pair returned by login/refresh (schema `Token`,
app/schemas/auth.py), with the encoded JWT strings represented by their
payloads. -/
structure Token where
  access_token : Payload
  refresh_token : Payload
  token_type : String
deriving DecidableEq, Repr

/-- `AuthService.authenticate_user` (app/services/auth_services.py:51-63):
look the user up by email; `None` when absent or when the password does not
verify against the stored hash. -/
def authenticate_user (db : List User) (email password : String) : Option User :=
  match get_user_by_email db email with
  | none => none
  | some user => if verify_password password user.password then some user else none

/-- `AuthService.login` (app/services/auth_services.py:65-98).  `now` is the
issuance time, `aJti`/`rJti` the fresh uuid4 jtis, `expire_minutes` the
configured `ACCESS_TOKEN_EXPIRE_MINUTES`.  After the active check, line 81
reads `user.is_verified`, an attribute the ORM model does not map, so every
active user makes the call die with an unhandled AttributeError; the
`EmailNotVerifiedException` branch and the token issuance below it are
unreachable. -/
def login (db : List User) (email password : String)
    (_now _expire_minutes : Nat) (_aJti _rJti : String) : Except AuthError Token :=
  match authenticate_user db email password with
  | none => .error .invalidCredentials
  | some user =>
    if !user.is_active then .error .inactiveUser
    else .error (.attributeError "is_verified")

/-- The registration request body (schema `RegisterRequest`,
app/schemas/auth.py:21-26).  Note it has no role field: a caller cannot
submit a role. -/
structure RegisterRequest where
  username : String
  email : String
  first_name : String
  last_name : String
  password : String
deriving DecidableEq, Repr

/-- `AuthService.register` (app/services/auth_services.py:100-150): duplicate
checks first; when both pass, `User(..., is_verified=False)` at lines 120-129
passes the keyword `is_verified`, which the declarative constructor rejects
because the ORM model declares no such column — an unhandled TypeError before
any `session.add`, so no row is ever inserted.  Returns the user table after
the call together with the outcome; the table comes back unchanged on every
path. -/
def register (db : List User) (req : RegisterRequest) (_newUuid : String) :
    List User × Except AuthError User :=
  match get_user_by_email db req.email with
  | some _ => (db, .error (.duplicateEmail req.email))
  | none =>
    match get_user_by_username db req.username with
    | some _ => (db, .error (.duplicateUsername req.username))
    | none => (db, .error (.typeError "is_verified"))

/-- `AuthService.resend_verification_email`
(app/services/auth_services.py:175-196).  A missing account gets the uniform
success message; an existing account immediately hits `user.is_verified` at
line 182, an attribute the ORM model does not map — an unhandled
AttributeError, so the `EmailAlreadyVerifiedException`, the send (whose
boolean result the dropped third parameter mirrored) and the uniform message
for existing accounts are all unreachable. -/
def resend_verification_email (db : List User) (email : String)
    (_emailOk : Bool) : Except AuthError String :=
  match get_user_by_email db email with
  | none => .ok "If the email exists, a verification link has been sent."
  | some _ => .error (.attributeError "is_verified")

/-- `AuthService.forgot_password` (app/services/auth_services.py:198-217).
`emailOk` is the boolean result of `email_service.send_password_reset_email`. -/
def forgot_password (db : List User) (email : String) (emailOk : Bool) :
    Except AuthError String :=
  match get_user_by_email db email with
  | none => .ok "If the email exists, a password reset link has been sent."
  | some _ =>
    if !emailOk then .error .emailSending
    else .ok "If the email exists, a password reset link has been sent."

/-- `AuthService.logout` (app/services/auth_services.py:243-267), over the
decoded payload: require a truthy jti (else `ValidationException`), blacklist
it for `max(exp - now, 0)` seconds (3600 when `exp` is falsy), and raise
`RedisUnavailableException` when the blacklist write reports failure. -/
def logout (st : RedisState) (payload : Payload) (now : Nat) :
    Except AuthError (String × RedisState) :=
  if !truthyStr payload.jti then
    .error (.validationErr "Token does not contain a JTI")
  else
    let expires_in :=
      match payload.exp with
      | some e => if e == 0 then 3600 else e - now
      | none => 3600
    let res := add_token_to_blacklist st (payload.jti.getD "") expires_in
    if res.2 then .ok ("Successfully logged out", res.1)
    else .error .redisUnavailable

/-- `AuthService.logout_all_devices` (app/services/auth_services.py:269-279):
write the per-user watermark with a 7-day TTL; `RedisUnavailableException`
when the write fails. -/
def logout_all_devices (st : RedisState) (user_uuid : String) (now : Nat) :
    Except AuthError (String × RedisState) :=
  let res := blacklist_all_user_tokens st user_uuid (7 * 24 * 60 * 60) now
  if res.2 then .ok ("Successfully logged out from all devices", res.1)
  else .error .redisUnavailable

/-- `AuthService.refresh_access_token` (app/services/auth_services.py:285-336)
over the decoded payload.  Mirrors the source order: type check, blacklist
check (only for a truthy jti), subject check, user lookup, active check, then
blacklist the old jti (again only when truthy; the write's success flag is
ignored by the source) and issue a fresh pair. -/
def refresh_access_token (db : List User) (st : RedisState) (payload : Payload)
    (now expire_minutes : Nat) (aJti rJti : String) :
    Except AuthError (Token × RedisState) :=
  if !(payload.type == some "refresh") then .error .invalidToken
  else if truthyStr payload.jti && is_token_blacklisted st (payload.jti.getD "") then
    .error .tokenExpired
  else
    match payload.sub with
    | none => .error .invalidToken
    | some user_uuid =>
      if user_uuid == "" then .error .invalidToken
      else
        match get_user_by_uuid db user_uuid with
        | none => .error (.userNotFound user_uuid)
        | some user =>
          if !user.is_active then .error .inactiveUser
          else
            let st' :=
              if truthyStr payload.jti then
                let expires_in :=
                  match payload.exp with
                  | some e => if e == 0 then 7 * 24 * 60 * 60 else e - now
                  | none => 7 * 24 * 60 * 60
                (add_token_to_blacklist st (payload.jti.getD "") expires_in).1
              else st
            .ok ({ access_token := create_access_token user.uuid aJti now expire_minutes,
                   refresh_token := create_refresh_token user.uuid rJti now,
                   token_type := "bearer" }, st')

/-- The two HTTPException values of `get_current_user`
(app/core/security.py:120-130): both 401, distinguished by detail. -/
inductive HttpError
  | credentials
  | revoked
deriving DecidableEq, Repr

/-- Both exceptions in `get_current_user` carry status 401. -/
def HttpError.status : HttpError → Nat
  | .credentials => 401
  | .revoked => 401

/-- The `detail` strings of the two `get_current_user` exceptions. -/
def HttpError.detail : HttpError → String
  | .credentials => "Could not validate credentials"
  | .revoked => "Token has been revoked"

/-- `get_current_user` (app/core/security.py:112-160): `decoded = none` is a
failed `jwt.decode`; then `sub is None` check, per-token blacklist check
guarded by `if jti and ...`, per-user watermark check guarded by
`if iat and ...`, and finally the user lookup by uuid. -/
def get_current_user (db : List User) (st : RedisState)
    (decoded : Option Payload) : Except HttpError User :=
  match decoded with
  | none => .error .credentials
  | some payload =>
    match payload.sub with
    | none => .error .credentials
    | some user_uuid =>
      if truthyStr payload.jti && is_token_blacklisted st (payload.jti.getD "") then
        .error .revoked
      else if truthyNat payload.iat
          && is_user_token_blacklisted st user_uuid (payload.iat.getD 0) then
        .error .revoked
      else
        match get_user_by_uuid db user_uuid with
        | none => .error .credentials
        | some user => .ok user

/-- The column names declared on the `User` ORM model
(app/models/user.py:19-38): these and only these are accepted as keyword
arguments by the SQLAlchemy declarative constructor. -/
def userModelColumns : List String :=
  ["id", "uuid", "username", "email", "first_name", "last_name",
   "role", "is_active", "password", "created_at", "updated_at"]

/-- The keyword arguments `AuthService.register` passes to `User(...)`
(app/services/auth_services.py:120-129). -/
def registerUserKwargs : List String :=
  ["username", "email", "first_name", "last_name", "password",
   "role", "is_active", "is_verified"]

/-- The columns of the `users` table after migration `add_is_verified_001`
(alembic/versions/add_is_verified_column.py): the model's columns plus the
non-null `is_verified` column the migration adds. -/
def migratedUserColumns : List String :=
  userModelColumns ++ ["is_verified"]

/-! Concrete fixtures for witnesses and counterexamples. -/

/-- A verified, active sample user (as created by the test fixtures). -/
def aliceW : User :=
  { uuid := "u-1", username := "alice", email := "alice@example.com",
    first_name := "A", last_name := "L",
    password := get_password_hash "pw12345678",
    role := .user, is_active := true, is_verified := true }

/-- An inactive (deactivated) but verified sample user. -/
def inactiveW : User :=
  { uuid := "u-2", username := "bob", email := "bob@example.com",
    first_name := "B", last_name := "M",
    password := get_password_hash "pw12345678",
    role := .user, is_active := false, is_verified := true }

/-- An active but not yet verified sample user. -/
def unverifiedW : User :=
  { uuid := "u-3", username := "carol", email := "carol@example.com",
    first_name := "C", last_name := "N",
    password := get_password_hash "pw12345678",
    role := .user, is_active := true, is_verified := false }

/-! Helper lemmas. -/

/-- The per-user watermark check reads only the availability flag and the
watermark table. -/
theorem userBL_congr (st₁ st₂ : RedisState) (hav : st₁.available = st₂.available)
    (hwm : st₁.userWatermarks = st₂.userWatermarks) (u : String) (t : Nat) :
    is_user_token_blacklisted st₁ u t = is_user_token_blacklisted st₂ u t := by
  simp [is_user_token_blacklisted, hav, hwm]

/-- The per-token blacklist check reads only the availability flag and the
token table. -/
theorem tokenBL_congr (st₁ st₂ : RedisState) (hav : st₁.available = st₂.available)
    (htk : st₁.tokenEntries = st₂.tokenEntries) (j : String) :
    is_token_blacklisted st₁ j = is_token_blacklisted st₂ j := by
  simp [is_token_blacklisted, hav, htk]

/-! Claim theorems. -/

/-- Claim C2: with the cache reachable, the watermark check returns true iff a
watermark entry exists for the user and the token's issued-at is strictly
below it; after a logout-all write of watermark `now`, every token with
`iat < now` is rejected and every token with `now ≤ iat` (including
`iat = now`) is unaffected. -/
theorem C2_user_watermark (st : RedisState) (u : String) (t : Nat)
    (hav : st.available = true) :
    (is_user_token_blacklisted st u t = true ↔
      ∃ w, List.lookup u st.userWatermarks = some w ∧ t < w)
  ∧ ∀ ttl now,
      (t < now →
        is_user_token_blacklisted (blacklist_all_user_tokens st u ttl now).1 u t
          = true)
    ∧ (now ≤ t →
        is_user_token_blacklisted (blacklist_all_user_tokens st u ttl now).1 u t
          = false) := by
  refine ⟨?_, ?_⟩
  · rw [is_user_token_blacklisted, hav]
    cases h : List.lookup u st.userWatermarks with
    | none => simp [h]
    | some w => simp [h]
  · intro ttl now
    constructor
    · intro hlt
      simp [blacklist_all_user_tokens, is_user_token_blacklisted, hav,
        List.lookup, hlt]
    · intro hge
      simp [blacklist_all_user_tokens, is_user_token_blacklisted, hav,
        List.lookup]
      omega

/-- Witness for C2 at a concrete state: after writing the watermark 7, a
token issued at time 3 is rejected. -/
theorem C2_user_watermark_witness :
    is_user_token_blacklisted
      (blacklist_all_user_tokens ⟨true, [], []⟩ "u-1" 604800 7).1 "u-1" 3
      = true :=
  ((C2_user_watermark ⟨true, [], []⟩ "u-1" 3 rfl).2 604800 7).1 (by decide)

/-- Claim C3: when the cache is unavailable, both revocation reads return
false (fail open, no error escapes: they are total functions into Bool),
while a logout whose blacklist write fails raises
RedisUnavailableException, which carries HTTP status 503. -/
theorem C3_fail_open_reads_fail_closed_logout (st : RedisState)
    (hunav : st.available = false) :
    (∀ j, is_token_blacklisted st j = false)
  ∧ (∀ u t, is_user_token_blacklisted st u t = false)
  ∧ (∀ payload now, truthyStr payload.jti = true →
      logout st payload now = .error .redisUnavailable)
  ∧ AuthError.redisUnavailable.status = 503 := by
  refine ⟨?_, ?_, ?_, rfl⟩
  · intro j
    simp [is_token_blacklisted, hunav]
  · intro u t
    simp [is_user_token_blacklisted, hunav]
  · intro payload now hj
    simp [logout, hj, add_token_to_blacklist, hunav]

/-- Witness for C3 at a concrete unavailable state holding a (stale) entry:
the read still reports not-blacklisted and logout errors out. -/
theorem C3_fail_open_witness :
    is_token_blacklisted ⟨false, [("j1", 60)], []⟩ "j1" = false
  ∧ logout ⟨false, [("j1", 60)], []⟩
      { jti := some "j2", exp := some 100 } 0 = .error .redisUnavailable :=
  ⟨(C3_fail_open_reads_fail_closed_logout ⟨false, [("j1", 60)], []⟩ rfl).1 "j1",
   (C3_fail_open_reads_fail_closed_logout ⟨false, [("j1", 60)], []⟩ rfl).2.2.1
     { jti := some "j2", exp := some 100 } 0 (by decide)⟩

/-- Claim C5: a login with an unknown email and a login with a known email
but wrong password produce the very same error value — the same
InvalidCredentialsException with status 401 and the same detail message —
so the response does not reveal whether the account exists. -/
theorem C5_login_enumeration_resistance (db : List User)
    (e₁ p₁ e₂ p₂ : String) (u : User)
    (h₁ : get_user_by_email db e₁ = none)
    (h₂ : get_user_by_email db e₂ = some u)
    (hpw : verify_password p₂ u.password = false) :
    ∀ now m aj rj,
      login db e₁ p₁ now m aj rj = .error .invalidCredentials
    ∧ login db e₂ p₂ now m aj rj = .error .invalidCredentials
    ∧ login db e₁ p₁ now m aj rj = login db e₂ p₂ now m aj rj
    ∧ AuthError.invalidCredentials.status = 401
    ∧ AuthError.invalidCredentials.detail = "Invalid email or password" := by
  intro now m aj rj
  have hA : login db e₁ p₁ now m aj rj = .error .invalidCredentials := by
    simp [login, authenticate_user, h₁]
  have hB : login db e₂ p₂ now m aj rj = .error .invalidCredentials := by
    simp [login, authenticate_user, h₂, hpw]
  exact ⟨hA, hB, hA.trans hB.symm, rfl, rfl⟩

/-- Witness for C5: unknown email vs. Alice's email with a wrong password. -/
theorem C5_login_enumeration_witness :
    login [aliceW] "ghost@example.com" "pw12345678" 0 30 "a" "r"
      = .error .invalidCredentials
  ∧ login [aliceW] "alice@example.com" "wrongpassword" 0 30 "a" "r"
      = .error .invalidCredentials :=
  ⟨((C5_login_enumeration_resistance [aliceW] "ghost@example.com" "pw12345678"
      "alice@example.com" "wrongpassword" aliceW (by decide) (by decide)
      (by decide)) 0 30 "a" "r").1,
   ((C5_login_enumeration_resistance [aliceW] "ghost@example.com" "pw12345678"
      "alice@example.com" "wrongpassword" aliceW (by decide) (by decide)
      (by decide)) 0 30 "a" "r").2.1⟩

/-- The registration request used by the C7 evaluation: a fresh, valid
request against the empty table. -/
def daveReqW : RegisterRequest :=
  { username := "dave", email := "dave@example.com", first_name := "D",
    last_name := "O", password := "hunter2secret" }

/-- Claim C7 (code bug): the claim — a valid registration stores a hash of
the password with the least-privileged role — is the documented intent (the
spec, the migration and the test fixtures all assume the stored is_verified
flag), but the staged code never reaches the insert: evaluating register at
a fresh valid request, both duplicate checks pass and the call dies with the
unhandled TypeError from the is_verified constructor keyword, storing no
row; exactly that keyword is the one register passes beyond the model's
declared columns, and the failure surfaces as HTTP 500. -/
theorem C7_register_typeerror :
    register [] daveReqW "u-9" = ([], .error (.typeError "is_verified"))
  ∧ registerUserKwargs.filter (fun c => !(userModelColumns.contains c))
      = ["is_verified"]
  ∧ (AuthError.typeError "is_verified").status = 500 :=
  ⟨rfl, by decide, rfl⟩

/-- Claim C8: a registration whose email is already taken fails with
DuplicateEmail, and one whose username is already taken fails with
DuplicateUsername, in both cases leaving the user table exactly as it was
(the exception is raised before any insert). -/
theorem C8_register_duplicate_atomic (db : List User) (req : RegisterRequest)
    (nu : String) :
    (∀ u, get_user_by_email db req.email = some u →
       register db req nu = (db, .error (.duplicateEmail req.email)))
  ∧ (get_user_by_email db req.email = none →
     ∀ u, get_user_by_username db req.username = some u →
       register db req nu = (db, .error (.duplicateUsername req.username))) := by
  constructor
  · intro u h
    rw [register, h]
  · intro h u h'
    rw [register, h, h']

/-- Witness for C8: re-registering Alice's email leaves the table unchanged
and reports DuplicateEmail. -/
theorem C8_register_duplicate_witness :
    register [aliceW]
      { username := "alice2", email := "alice@example.com", first_name := "A",
        last_name := "L", password := "pw12345678" } "u-9"
      = ([aliceW], .error (.duplicateEmail "alice@example.com")) :=
  (C8_register_duplicate_atomic [aliceW]
    { username := "alice2", email := "alice@example.com", first_name := "A",
      last_name := "L", password := "pw12345678" } "u-9").1 aliceW (by decide)

/-- Claim C9 (code bug): the spec's invariant — every User record carries
role, is_active and is_verified — matches the migrated database table and is
what the register code and the tests assume, yet the ORM model itself
declares no is_verified column: register passes the keyword argument
is_verified to a constructor whose declared columns do not include it (a
TypeError at runtime under the SQLAlchemy declarative constructor). -/
theorem C9_user_model_missing_is_verified :
    "role" ∈ userModelColumns
  ∧ "is_active" ∈ userModelColumns
  ∧ "is_verified" ∉ userModelColumns
  ∧ "is_verified" ∈ registerUserKwargs
  ∧ "is_verified" ∈ migratedUserColumns := by decide

/-- Claim C10: in get_current_user the per-token check runs only under a
truthy jti and the per-user watermark check only under a truthy iat: with a
falsy jti the result is independent of the token-blacklist table, with a
falsy iat it is independent of the watermark table, and with both falsy a
token naming an existing user is accepted whatever revocation entries the
cache holds. -/
theorem C10_revocation_checks_guarded (db : List User) (payload : Payload) :
    (truthyStr payload.jti = false →
      ∀ st₁ st₂ : RedisState, st₁.available = st₂.available →
        st₁.userWatermarks = st₂.userWatermarks →
        get_current_user db st₁ (some payload)
          = get_current_user db st₂ (some payload))
  ∧ (truthyNat payload.iat = false →
      ∀ st₁ st₂ : RedisState, st₁.available = st₂.available →
        st₁.tokenEntries = st₂.tokenEntries →
        get_current_user db st₁ (some payload)
          = get_current_user db st₂ (some payload))
  ∧ (truthyStr payload.jti = false → truthyNat payload.iat = false →
      ∀ (st : RedisState) (u : String) (user : User),
        payload.sub = some u → get_user_by_uuid db u = some user →
        get_current_user db st (some payload) = .ok user) := by
  refine ⟨?_, ?_, ?_⟩
  · intro hjti st₁ st₂ hav hwm
    cases hsub : payload.sub with
    | none => simp [get_current_user, hsub]
    | some u =>
      simp only [get_current_user, hsub, hjti, Bool.false_and]
      rw [userBL_congr st₁ st₂ hav hwm u (payload.iat.getD 0)]
  · intro hiat st₁ st₂ hav htk
    cases hsub : payload.sub with
    | none => simp [get_current_user, hsub]
    | some u =>
      simp only [get_current_user, hsub, hiat, Bool.false_and]
      rw [tokenBL_congr st₁ st₂ hav htk (payload.jti.getD "")]
  · intro hjti hiat st u user hsub huser
    simp [get_current_user, hsub, hjti, hiat, huser]

/-- Witness for C10: a token with empty jti and iat 0 for Alice is accepted
even though the cache holds both a matching token entry and a watermark that
would reject iat 0. -/
theorem C10_revocation_checks_witness :
    get_current_user [aliceW] ⟨true, [("", 5)], [("u-1", 100)]⟩
      (some { sub := some "u-1", jti := some "", iat := some 0 }) = .ok aliceW :=
  (C10_revocation_checks_guarded [aliceW]
    { sub := some "u-1", jti := some "", iat := some 0 }).2.2 rfl rfl
    ⟨true, [("", 5)], [("u-1", 100)]⟩ "u-1" aliceW rfl (by decide)

/-- Claim C4 counterexample: logging in as an inactive user with the correct
password raises InactiveUserException, which extends ForbiddenException and
carries HTTP status 403 — not the 400 the claim states; and logging in as
Alice, who is active and verified, does not return 200 with tokens: the
user.is_verified read dies with an unhandled AttributeError surfaced as 500,
because the ORM model maps no such attribute. -/
theorem C4_login_counterexample :
    login [inactiveW] "bob@example.com" "pw12345678" 0 30 "a" "r"
      = .error .inactiveUser
  ∧ AuthError.inactiveUser.status = 403
  ∧ AuthError.inactiveUser.status ≠ 400
  ∧ login [aliceW] "alice@example.com" "pw12345678" 0 30 "a" "r"
      = .error (.attributeError "is_verified")
  ∧ (AuthError.attributeError "is_verified").status = 500 :=
  ⟨rfl, rfl, by decide, rfl, rfl⟩

/-- Claim C4 (amended): login fails with 401 InvalidCredentials when the
email is unknown or the password does not verify, and with 403 (not 400)
InactiveUser when the matched user is inactive; for every active matched
user — verified or not — it raises an unhandled AttributeError (HTTP 500) at
the user.is_verified read, since the ORM model declares no such attribute,
so the 200 bearer-pair success and the 403 EmailNotVerified outcomes are
unreachable in the staged code. -/
theorem C4_login_statuses (db : List User) (email password : String)
    (now m : Nat) (aj rj : String) :
    (get_user_by_email db email = none →
       login db email password now m aj rj = .error .invalidCredentials)
  ∧ (∀ u, get_user_by_email db email = some u →
      (verify_password password u.password = false →
         login db email password now m aj rj = .error .invalidCredentials)
    ∧ (verify_password password u.password = true →
        (u.is_active = false →
           login db email password now m aj rj = .error .inactiveUser)
      ∧ (u.is_active = true →
           login db email password now m aj rj
             = .error (.attributeError "is_verified"))))
  ∧ AuthError.invalidCredentials.status = 401
  ∧ AuthError.inactiveUser.status = 403
  ∧ (AuthError.attributeError "is_verified").status = 500 := by
  refine ⟨?_, ?_, rfl, rfl, rfl⟩
  · intro h
    simp [login, authenticate_user, h]
  · intro u hu
    refine ⟨?_, ?_⟩
    · intro hpw
      simp [login, authenticate_user, hu, hpw]
    · intro hpw
      refine ⟨?_, ?_⟩
      · intro hact
        simp [login, authenticate_user, hu, hpw, hact]
      · intro hact
        simp [login, authenticate_user, hu, hpw, hact]

/-- Witness for C4 (amended): Carol, active and unverified, hits the same
AttributeError as every other active user. -/
theorem C4_login_statuses_witness :
    login [unverifiedW] "carol@example.com" "pw12345678" 0 30 "a" "r"
      = .error (.attributeError "is_verified") :=
  (((C4_login_statuses [unverifiedW] "carol@example.com" "pw12345678" 0 30
      "a" "r").2.1 unverifiedW (by decide)).2 (by decide)).2 rfl

/-- Claim C6 counterexample: resending verification for Alice's existing
account does not return the uniform success message a non-existent address
receives — it dies with the unhandled AttributeError (HTTP 500) at the
user.is_verified read — so the response does distinguish her account from a
missing one. -/
theorem C6_enumeration_counterexample :
    resend_verification_email [aliceW] "alice@example.com" true
      = .error (.attributeError "is_verified")
  ∧ resend_verification_email [aliceW] "ghost@example.com" true
      = .ok "If the email exists, a verification link has been sent."
  ∧ resend_verification_email [aliceW] "alice@example.com" true
      ≠ resend_verification_email [aliceW] "ghost@example.com" true :=
  ⟨rfl, rfl, fun h => Except.noConfusion h⟩

/-- Claim C6 (amended): forgot-password, which never touches is_verified,
returns the identical success message for an existing and for a missing
account (when email delivery succeeds); resend-verification does not:
a missing address gets the uniform 200 message while every existing account
crashes with the unhandled AttributeError (HTTP 500) at the user.is_verified
read, so resend-verification distinguishes existing accounts. -/
theorem C6_enumeration_amended (db : List User) (e₁ e₂ : String) (u : User)
    (h₁ : get_user_by_email db e₁ = none)
    (h₂ : get_user_by_email db e₂ = some u) :
    forgot_password db e₁ true = forgot_password db e₂ true
  ∧ forgot_password db e₁ true
      = .ok "If the email exists, a password reset link has been sent."
  ∧ resend_verification_email db e₁ true
      = .ok "If the email exists, a verification link has been sent."
  ∧ resend_verification_email db e₂ true
      = .error (.attributeError "is_verified")
  ∧ (AuthError.attributeError "is_verified").status = 500 := by
  refine ⟨?_, ?_, ?_, ?_, rfl⟩
  · simp [forgot_password, h₁, h₂]
  · simp [forgot_password, h₁]
  · simp [resend_verification_email, h₁]
  · simp [resend_verification_email, h₂]

/-- Witness for C6 (amended): a ghost address and Carol's existing account,
on the forgot-password and resend-verification endpoints. -/
theorem C6_enumeration_amended_witness :
    forgot_password [unverifiedW] "ghost@example.com" true
      = forgot_password [unverifiedW] "carol@example.com" true
  ∧ resend_verification_email [unverifiedW] "carol@example.com" true
      = .error (.attributeError "is_verified") :=
  ⟨(C6_enumeration_amended [unverifiedW] "ghost@example.com"
      "carol@example.com" unverifiedW (by decide) (by decide)).1,
   (C6_enumeration_amended [unverifiedW] "ghost@example.com"
      "carol@example.com" unverifiedW (by decide) (by decide)).2.2.2.1⟩

/-- A well-formed refresh-token payload for Alice, issued at 0, expiring
after the 7-day refresh lifetime. -/
def refreshPW : Payload :=
  { sub := some "u-1", jti := some "r1", iat := some 0,
    exp := some 604800, type := some "refresh" }

/-- Claim C1: for a decoded refresh payload (truthy jti, subject naming an
existing active user, unexpired) with the cache reachable (the blacklist
write takes effect), refresh_access_token raises InvalidToken unless
type = "refresh"; raises TokenExpired when the jti is already blacklisted;
and otherwise succeeds, returning a fresh access+refresh pair and recording
the old jti in the blacklist with TTL equal to the token's remaining
lifetime — after which any replay of the same payload fails with
TokenExpired. -/
theorem C1_refresh_rotation (db : List User) (st : RedisState)
    (payload : Payload) (now m : Nat) (aj rj : String) (j uu : String)
    (user : User) (e : Nat)
    (hj : payload.jti = some j) (hjne : j ≠ "")
    (hsub : payload.sub = some uu) (huune : uu ≠ "")
    (huser : get_user_by_uuid db uu = some user)
    (hact : user.is_active = true)
    (hexp : payload.exp = some e) (hlive : now < e)
    (hav : st.available = true) :
    (payload.type ≠ some "refresh" →
       refresh_access_token db st payload now m aj rj = .error .invalidToken)
  ∧ (payload.type = some "refresh" →
      (is_token_blacklisted st j = true →
         refresh_access_token db st payload now m aj rj = .error .tokenExpired)
    ∧ (is_token_blacklisted st j = false →
        ∃ st',
          refresh_access_token db st payload now m aj rj
            = .ok ({ access_token := create_access_token user.uuid aj now m,
                     refresh_token := create_refresh_token user.uuid rj now,
                     token_type := "bearer" }, st')
        ∧ List.lookup j st'.tokenEntries = some (e - now)
        ∧ ∀ now' m' aj' rj',
            refresh_access_token db st' payload now' m' aj' rj'
              = .error .tokenExpired)) := by
  have hene : e ≠ 0 := by omega
  refine ⟨?_, ?_⟩
  · intro hty
    have hty' : (payload.type == some "refresh") = false := by simp [hty]
    simp [refresh_access_token, hty']
  · intro hty
    have hty' : (payload.type == some "refresh") = true := by simp [hty]
    constructor
    · intro hbl
      simp [refresh_access_token, hty', hj, truthyStr, hjne, hbl]
    · intro hbl
      refine ⟨{ st with tokenEntries := (j, e - now) :: st.tokenEntries },
        ?_, ?_, ?_⟩
      · simp [refresh_access_token, hty', hj, truthyStr, hjne, hbl, hsub,
          huune, huser, hact, hexp, hene, add_token_to_blacklist, hav]
      · simp [List.lookup]
      · intro now' m' aj' rj'
        simp [refresh_access_token, hty', hj, truthyStr, hjne,
          is_token_blacklisted, hav, List.lookup]

/-- Witness for C1: Alice's refresh token succeeds once from the empty
cache, its jti is stored with its full remaining lifetime, and every replay
of it against the resulting cache fails with TokenExpired. -/
theorem C1_refresh_rotation_witness :
    ∃ st' : RedisState,
      refresh_access_token [aliceW] ⟨true, [], []⟩ refreshPW 0 30 "a2" "r2"
        = .ok ({ access_token := create_access_token "u-1" "a2" 0 30,
                 refresh_token := create_refresh_token "u-1" "r2" 0,
                 token_type := "bearer" }, st')
    ∧ List.lookup "r1" st'.tokenEntries = some 604800
    ∧ ∀ now' m' aj' rj',
        refresh_access_token [aliceW] st' refreshPW now' m' aj' rj'
          = .error .tokenExpired :=
  ((C1_refresh_rotation [aliceW] ⟨true, [], []⟩ refreshPW 0 30 "a2" "r2"
      "r1" "u-1" aliceW 604800 rfl (by decide) rfl (by decide) (by decide)
      rfl rfl (by decide) rfl).2 rfl).2 rfl

end BookAPI
